import Mathlib

/-!
Shallow embedding of the `lauglam/rust-demo` repository: a ratatui counter
application (`ratatui-counter-demo`: `main.rs`, `tui.rs`, `errors.rs`) and a
minimal hello-world demo (`ratatui-demo/main.rs`).

The application state, the key-event transition functions, the run loop, the
terminal-session guard and the fatal-path hooks are translated from the Rust
source.  Machine integers (`u8`) are modelled as `Nat` together with the
debug-build semantics of Rust arithmetic: `+= 1` at 255 and `-= 1` at 0 are
arithmetic-overflow faults (panics), as witnessed by the repository's own
`handle_key_event_panic` test.
-/

namespace CounterDemo

/-- Rust `struct App { counter: u8, exit: bool }` (main.rs).  `counter` models a
`u8`; theorems that need representability carry `counter ≤ 255` explicitly. -/
structure App where
  counter : Nat
  exit : Bool
deriving DecidableEq, Repr

/-- Initial state `App::default()`: counter 0, exit false. -/
def App.default : App := { counter := 0, exit := false }

/-- Result of one fallible `&mut self` step of the Rust code.  `ok` and `err`
carry the state after the call (Rust keeps the mutations already applied when
a method returns `Err`); `panicked` is an unwinding arithmetic fault, after
which the state is no longer observable by the caller. -/
inductive Outcome where
  | ok (a : App)
  | err (msg : String) (a : App)
  | panicked (msg : String)
deriving DecidableEq, Repr

/-- The state an `Outcome` leaves behind, when control returns to the caller. -/
def Outcome.state? : Outcome → Option App
  | .ok a => some a
  | .err _ a => some a
  | .panicked _ => none

/-- Whether the step returned `Err` to the caller. -/
def Outcome.isErr : Outcome → Bool
  | .err _ _ => true
  | _ => false

/-- The subset of crossterm `KeyCode` the application matches on; `Other`
stands for every key the source's `_ => {}` arm ignores. -/
inductive KeyCode where
  | Char (c : Char)
  | Left
  | Right
  | Other
deriving DecidableEq, Repr

/-- crossterm `KeyEventKind` (Press / Repeat / Release). -/
inductive KeyEventKind where
  | Press
  | Repeat
  | Release
deriving DecidableEq, Repr

/-- crossterm `KeyEvent`, restricted to the fields the application reads. -/
structure KeyEvent where
  code : KeyCode
  kind : KeyEventKind
deriving DecidableEq, Repr

/-- crossterm `Event`: a key event, or any other event (`_ => Ok(())`). -/
inductive Event where
  | Key (ke : KeyEvent)
  | NonKey
deriving DecidableEq, Repr

/-- Rust `fn exit(&mut self) { self.exit = true; }` (main.rs). -/
def appExit (a : App) : App := { a with exit := true }

/-- Rust `fn increment_counter(&mut self) -> Result<()>` (main.rs):
`self.counter += 1; if self.counter > 2 { bail!("counter overflow"); } Ok(())`.
The increment is committed before the range check; at `counter = 255` the
`u8` addition itself faults (debug build). -/
def incrementCounter (a : App) : Outcome :=
  if a.counter = 255 then .panicked "attempt to add with overflow"
  else
    let a' : App := { a with counter := a.counter + 1 }
    if a'.counter > 2 then .err "counter overflow" a'
    else .ok a'

/-- Rust `fn decrement_counter(&mut self) -> Result<()>` (main.rs):
`self.counter -= 1; Ok(())`.  At `counter = 0` the `u8` subtraction faults
(debug build), as the repository's `handle_key_event_panic` test asserts. -/
def decrementCounter (a : App) : Outcome :=
  if a.counter = 0 then .panicked "attempt to subtract with overflow"
  else .ok { a with counter := a.counter - 1 }

/-- Rust `fn handle_key_event(&mut self, key_event: KeyEvent) -> Result<()>`
(main.rs): quit on `'q'`, decrement on Left, increment on Right, no-op
otherwise. -/
def handleKeyEvent (a : App) (code : KeyCode) : Outcome :=
  match code with
  | .Char c => if c = 'q' then .ok (appExit a) else .ok a
  | .Left => decrementCounter a
  | .Right => incrementCounter a
  | .Other => .ok a

/-- Rust `fn handle_events(&mut self) -> Result<()>` (main.rs), applied to the
event `event::read()` delivered: only key events of kind `Press` are
dispatched to `handle_key_event`; everything else is `Ok(())`.  The
`wrap_err_with` context string does not change which outcome is produced, so
the root cause is kept as the error message. -/
def handleEvents (a : App) (ev : Event) : Outcome :=
  match ev with
  | .Key ke => if ke.kind = .Press then handleKeyEvent a ke.code else .ok a
  | .NonKey => .ok a

/-- Result of `App::run` (main.rs) over a finite prefix of the event stream.
`outOfEvents` marks the point where the model's event list is exhausted while
the real loop would still be blocked in `event::read()`. -/
inductive RunResult where
  | ok (a : App)
  | err (msg : String) (a : App)
  | panicked (msg : String)
  | outOfEvents (a : App)
deriving DecidableEq, Repr

/-- Rust `pub fn run(&mut self, terminal: &mut Tui) -> Result<()>` (main.rs):
`while !self.exit { terminal.draw(..)?; self.handle_events()?; } Ok(())`.
The second component counts the frames drawn (one per iteration, before the
event is handled).  An `Err` from `handle_events` is propagated by `?`, which
terminates the loop. -/
def run : App → List Event → RunResult × Nat
  | a, evs =>
    if a.exit then (.ok a, 0)
    else
      match evs with
      | [] => (.outOfEvents a, 1)
      | ev :: rest =>
        match handleEvents a ev with
        | .ok a' =>
          let r := run a' rest
          (r.1, r.2 + 1)
        | .err m a' => (.err m a', 1)
        | .panicked m => (.panicked m, 1)

/-- States reachable from `App::default()` through successful event
dispatches only (the loop stops at the first failure). -/
inductive Reachable : App → Prop
  | init : Reachable App.default
  | step (a a' : App) (ev : Event) :
      Reachable a → handleEvents a ev = .ok a' → Reachable a'

/-! ## Terminal session guard (tui.rs)

The crossterm primitives are an external collaborator; per the spec's backend
capability contract (§4.1, §6) each mode toggle is a harmless, repeatable
state change, modelled as a total transformer of the terminal's mode state. -/

/-- The process-wide terminal mode: raw input on/off, alternate screen
on/off. -/
structure TermState where
  rawMode : Bool
  altScreen : Bool
deriving DecidableEq, Repr

/-- crossterm `EnterAlternateScreen`. -/
def enterAlternateScreen (t : TermState) : TermState := { t with altScreen := true }

/-- crossterm `LeaveAlternateScreen`. -/
def leaveAlternateScreen (t : TermState) : TermState := { t with altScreen := false }

/-- crossterm `enable_raw_mode`. -/
def enableRawMode (t : TermState) : TermState := { t with rawMode := true }

/-- crossterm `disable_raw_mode`. -/
def disableRawMode (t : TermState) : TermState := { t with rawMode := false }

/-- Rust `pub fn init() -> io::Result<Tui>` (tui.rs): enter the alternate screen,
then enable raw mode. -/
def tuiInit (t : TermState) : TermState := enableRawMode (enterAlternateScreen t)

/-- Rust `pub fn restore() -> io::Result<()>` (tui.rs): leave the alternate
screen, then disable raw mode — unconditionally, with no guard on the
current mode. -/
def restore (t : TermState) : TermState := disableRawMode (leaveAlternateScreen t)

/-- A call into the guard: `tui::init()` or `tui::restore()`. -/
inductive TuiOp where
  | init
  | restore
deriving DecidableEq, Repr

/-- Apply a sequence of guard calls to a terminal state, in order. -/
def applyOps (t : TermState) (ops : List TuiOp) : TermState :=
  ops.foldl (fun s op => match op with | .init => tuiInit s | .restore => restore s) t

/-! ## Fatal-path hooks (errors.rs)

`install_hooks` wraps both the color_eyre panic hook and the eyre error hook
with `tui::restore().unwrap();` followed by the wrapped default hook.  Each
installed handler is modelled by the trace of steps it performs, as a
function of whether `tui::restore()` succeeds. -/

/-- One observable step of an installed fatal-path handler. -/
inductive HookStep where
  | restoreOk
  | restoreFailed
  | unwrapFault
  | defaultReport
deriving DecidableEq, Repr

/-- The panic hook installed by `install_hooks` (errors.rs lines 13–16):
`tui::restore().unwrap(); panic_hook(panic_info);`.  If `restore` fails the
`unwrap` faults and the wrapped default hook is never reached. -/
def installedPanicHook (restoreSucceeds : Bool) : List HookStep :=
  if restoreSucceeds then [.restoreOk, .defaultReport]
  else [.restoreFailed, .unwrapFault]

/-- The eyre error hook installed by `install_hooks` (errors.rs lines 20–25):
`tui::restore().unwrap(); eyre_hook(error)`. -/
def installedEyreHook (restoreSucceeds : Bool) : List HookStep :=
  if restoreSucceeds then [.restoreOk, .defaultReport]
  else [.restoreFailed, .unwrapFault]

/-! ## Rendering (`impl Widget for &App`, main.rs)

The widget draws a thick-bordered block with a centred title on the top
border, centred instructions on the bottom border, and the centred line
`Value: {counter}` in the first inner row.  The buffer is modelled as a grid
of characters; the concrete layout is validated below against the expected
buffer of the repository's own `render` test. -/

/-- A rendering area / frame buffer of the given size. -/
structure FrameBuf where
  width : Nat
  height : Nat
  rows : List (List Char)
deriving DecidableEq, Repr

/-- Source `Title::from(" Counter App Tutorial ".bold())`. -/
def titleText : List Char := " Counter App Tutorial ".toList

/-- The bottom-border instruction line, concatenated as in the source:
`" Decrement " "<Left>" " Increment " "<Right>" " Quit " "<Q> "`. -/
def instructionsText : List Char :=
  (" Decrement " ++ "<Left>" ++ " Increment " ++ "<Right>" ++ " Quit " ++ "<Q> ").toList

/-- Source `Text::from(.. "Value: " .. self.counter.to_string() ..)`. -/
def counterText (c : Nat) : List Char := ("Value: " ++ toString c).toList

/-- Centre `s` in a row of `width` cells filled with `fill` (ratatui's centre
alignment: `(width - len) / 2` leading fill cells). -/
def centerPad (width : Nat) (s : List Char) (fill : Char) : List Char :=
  if width ≤ s.length then s.take width
  else
    let left := (width - s.length) / 2
    let right := width - s.length - left
    List.replicate left fill ++ s ++ List.replicate right fill

/-- The character rows produced by `impl Widget for &App` in a `w × h` area:
thick border (`┏━┓┃┗┛`), centred title and instructions on the borders, the
counter line centred in the first inner row, blank inner rows below. -/
def renderRows (counter w h : Nat) : List (List Char) :=
  let inner := w - 2
  let top := '┏' :: (centerPad inner titleText '━' ++ ['┓'])
  let bottom := '┗' :: (centerPad inner instructionsText '━' ++ ['┛'])
  let valueRow := '┃' :: (centerPad inner (counterText counter) ' ' ++ ['┃'])
  let emptyRow := '┃' :: (List.replicate inner ' ' ++ ['┃'])
  match h with
  | 0 => []
  | 1 => [top]
  | Nat.succ (Nat.succ hi) =>
    top ::
      ((match hi with
        | 0 => ([] : List (List Char))
        | Nat.succ k => valueRow :: List.replicate k emptyRow) ++ [bottom])

/-- Rust `fn render(self, area: Rect, buf: &mut Buffer)` for `&App`: overwrite the
buffer's area with the widget's rows.  A function of the state and the
buffer only. -/
def render (a : App) (buf : FrameBuf) : FrameBuf :=
  { buf with rows := renderRows a.counter buf.width buf.height }

/-- Rust `fn render_frame(&self, frame: &mut Frame)` (main.rs): renders the app
into the frame; takes `&self`, so the returned application state is the one
passed in, unchanged. -/
def renderFrame (a : App) (buf : FrameBuf) : App × FrameBuf :=
  (a, render a buf)

/-! ## The hello-world demo (ratatui-demo/main.rs) -/

/-- The quit decision of one iteration of `main_loop` (ratatui-demo/main.rs):
the loop breaks iff `event::poll` delivered a key event with
`kind == Press && code == Char('q')`. -/
def demoShouldQuit (polled : Option Event) : Bool :=
  match polled with
  | some (.Key ke) => ke.kind = .Press && ke.code = .Char 'q'
  | _ => false

/-! ## Helper lemmas -/

/-- Sanity check: the model of `impl Widget for &App` reproduces, character
for character, the expected buffer of the repository's own `render` test
(`App::default()` in a 50×4 area). -/
theorem render_matches_reference_test :
    (render { counter := 0, exit := false }
        { width := 50, height := 4, rows := [] }).rows.map (fun l => String.mk l)
      = ["┏━━━━━━━━━━━━━ Counter App Tutorial ━━━━━━━━━━━━━┓",
         "┃                    Value: 0                    ┃",
         "┃                                                ┃",
         "┗━ Decrement <Left> Increment <Right> Quit <Q> ━━┛"] := by
  decide

/-- Every state a key-event transition hands back to the caller (on `Ok` or
on a returned `Err`) is the old state, the old state with exit set, or the
old state with the counter moved by one. -/
theorem handleKeyEvent_state_cases (a : App) (c : KeyCode) (a' : App)
    (h : (handleKeyEvent a c).state? = some a') :
    a' = a ∨ a' = appExit a ∨ a' = { a with counter := a.counter - 1 }
      ∨ a' = { a with counter := a.counter + 1 } := by
  cases c with
  | Char ch =>
    by_cases hq : ch = 'q' <;>
      simp [handleKeyEvent, hq, Outcome.state?] at h
    · subst h
      right; left; rfl
    · subst h
      left; rfl
  | Left =>
    simp only [handleKeyEvent, decrementCounter] at h
    by_cases h0 : a.counter = 0 <;> simp [h0, Outcome.state?] at h
    subst h
    right; right; left; rfl
  | Right =>
    simp only [handleKeyEvent, incrementCounter] at h
    by_cases h255 : a.counter = 255
    · simp [h255, Outcome.state?] at h
    · by_cases h2 : 2 < a.counter + 1 <;>
        simp [h255, h2, Outcome.state?] at h <;>
        (subst h; right; right; right; rfl)
  | Other =>
    simp [handleKeyEvent, Outcome.state?] at h
    subst h
    left; rfl

/-- Every state an event dispatch hands back to the caller has one of the
four shapes of `handleKeyEvent_state_cases`. -/
theorem handleEvents_state_cases (a : App) (ev : Event) (a' : App)
    (h : (handleEvents a ev).state? = some a') :
    a' = a ∨ a' = appExit a ∨ a' = { a with counter := a.counter - 1 }
      ∨ a' = { a with counter := a.counter + 1 } := by
  cases ev with
  | Key ke =>
    obtain ⟨code, kind⟩ := ke
    by_cases hk : kind = KeyEventKind.Press
    · simp only [handleEvents, hk, if_pos] at h
      exact handleKeyEvent_state_cases a code a' h
    · simp [handleEvents, hk, Outcome.state?] at h
      subst h
      left; rfl
  | NonKey =>
    simp [handleEvents, Outcome.state?] at h
    subst h
    left; rfl

/-- Event dispatch keeps the exit flag monotone on every outcome that
returns control to the caller. -/
theorem handleEvents_exit_mono (a : App) (ev : Event) (a' : App)
    (h : (handleEvents a ev).state? = some a') (he : a.exit = true) :
    a'.exit = true := by
  rcases handleEvents_state_cases a ev a' h with h1 | h1 | h1 | h1 <;>
    simp [h1, appExit, he]

/-- A successful key-event transition from a state with the counter in
`[0, 2]` lands in a state with the counter in `[0, 2]`. -/
theorem handleKeyEvent_ok_counter_le (a : App) (c : KeyCode) (a' : App)
    (h : handleKeyEvent a c = .ok a') (hle : a.counter ≤ 2) :
    a'.counter ≤ 2 := by
  cases c with
  | Char ch =>
    by_cases hq : ch = 'q' <;> simp [handleKeyEvent, hq] at h <;>
      subst h <;> simp [appExit, hle]
  | Left =>
    simp only [handleKeyEvent, decrementCounter] at h
    by_cases h0 : a.counter = 0 <;> simp [h0] at h
    subst h
    simp
    omega
  | Right =>
    simp only [handleKeyEvent, incrementCounter] at h
    by_cases h255 : a.counter = 255
    · simp [h255] at h
    · by_cases h2 : 2 < a.counter + 1 <;> simp [h255, h2] at h
      subst h
      simp
      omega
  | Other =>
    simp [handleKeyEvent] at h
    subst h
    exact hle

/-- A successful event dispatch preserves the `[0, 2]` counter range. -/
theorem handleEvents_ok_counter_le (a : App) (ev : Event) (a' : App)
    (h : handleEvents a ev = .ok a') (hle : a.counter ≤ 2) :
    a'.counter ≤ 2 := by
  cases ev with
  | Key ke =>
    obtain ⟨code, kind⟩ := ke
    by_cases hk : kind = KeyEventKind.Press
    · simp only [handleEvents, hk, if_pos] at h
      exact handleKeyEvent_ok_counter_le a code a' h hle
    · simp [handleEvents, hk] at h
      subst h
      exact hle
  | NonKey =>
    simp [handleEvents] at h
    subst h
    exact hle

/-- With the exit flag set, `run` stops at the top-of-loop check: no frame
is drawn and `Ok` is returned with the state untouched. -/
theorem run_exit_now (a : App) (evs : List Event) (h : a.exit = true) :
    run a evs = (.ok a, 0) := by
  unfold run
  simp [h]

/-! ## Claims -/

/-- C1: in both installed fatal-path handlers (the panic hook and the eyre
error hook), whenever the wrapped default reporting step appears in the
handler's trace, the trace is exactly "restore completed successfully, then
the default report": `restore()` runs to completion before any diagnostic is
printed. -/
theorem hooks_restore_before_report :
    ∀ restoreSucceeds : Bool,
      (HookStep.defaultReport ∈ installedPanicHook restoreSucceeds →
        installedPanicHook restoreSucceeds
          = [HookStep.restoreOk, HookStep.defaultReport])
      ∧ (HookStep.defaultReport ∈ installedEyreHook restoreSucceeds →
          installedEyreHook restoreSucceeds
            = [HookStep.restoreOk, HookStep.defaultReport]) := by
  intro b
  cases b <;> simp [installedPanicHook, installedEyreHook]

/-- Witness for C1: with a succeeding `restore`, the installed panic hook's
trace is restore-then-report. -/
theorem hooks_restore_before_report_witness :
    installedPanicHook true = [HookStep.restoreOk, HookStep.defaultReport] :=
  (hooks_restore_before_report true).1 (by decide)

/-- C10: both installed handlers run the wrapped default report only when
`restore()` succeeds; when `restore()` fails, the `unwrap()` faults inside
the handler and no default report is ever produced. -/
theorem hooks_unwrap_on_restore_failure :
    ∀ restoreSucceeds : Bool,
      ((HookStep.defaultReport ∈ installedPanicHook restoreSucceeds →
          restoreSucceeds = true)
        ∧ (restoreSucceeds = false →
            installedPanicHook restoreSucceeds
                = [HookStep.restoreFailed, HookStep.unwrapFault]
              ∧ HookStep.defaultReport ∉ installedPanicHook restoreSucceeds))
      ∧ ((HookStep.defaultReport ∈ installedEyreHook restoreSucceeds →
            restoreSucceeds = true)
        ∧ (restoreSucceeds = false →
            installedEyreHook restoreSucceeds
                = [HookStep.restoreFailed, HookStep.unwrapFault]
              ∧ HookStep.defaultReport ∉ installedEyreHook restoreSucceeds)) := by
  intro b
  cases b <;> simp [installedPanicHook, installedEyreHook]

/-- Witness for C10: with a failing `restore`, the installed panic hook
faults in `unwrap` and never reaches the default report. -/
theorem hooks_unwrap_on_restore_failure_witness :
    installedPanicHook false = [HookStep.restoreFailed, HookStep.unwrapFault]
      ∧ HookStep.defaultReport ∉ installedPanicHook false :=
  ((hooks_unwrap_on_restore_failure false).1).2 rfl

/-- C7: `restore` is idempotent — repeating it, or running it right after
`init` or before any `init`, gives the same terminal state as a single
`restore`, and after the last call of any call sequence ending in `restore`
the terminal is out of raw mode and out of the alternate screen. -/
theorem restore_idempotent :
    (∀ t : TermState, restore (restore t) = restore t)
    ∧ (∀ t : TermState, restore (tuiInit t) = restore t)
    ∧ (∀ t : TermState, restore t = { rawMode := false, altScreen := false })
    ∧ (∀ (t : TermState) (ops : List TuiOp),
        (applyOps t (ops ++ [TuiOp.restore])).rawMode = false
          ∧ (applyOps t (ops ++ [TuiOp.restore])).altScreen = false) := by
  refine ⟨fun t => rfl, fun t => rfl, fun t => rfl, fun t ops => ?_⟩
  have h : applyOps t (ops ++ [TuiOp.restore]) = restore (applyOps t ops) := by
    simp [applyOps, List.foldl_append]
  rw [h]
  exact ⟨rfl, rfl⟩

/-- C8: frame rendering is pure and deterministic — rendering the same state
into equal initial buffers gives byte-identical frames, `render_frame`
returns the application state unchanged, and the rendered frame does not
depend on anything in the state but the counter (in particular not on the
exit flag). -/
theorem frame_purity :
    (∀ (a : App) (b₁ b₂ : FrameBuf), b₁ = b₂ → render a b₁ = render a b₂)
    ∧ (∀ (a : App) (b : FrameBuf), (renderFrame a b).1 = a)
    ∧ (∀ (a : App) (e : Bool) (b : FrameBuf),
        render a b = render { a with exit := e } b) :=
  ⟨fun _ _ _ h => by rw [h], fun _ _ => rfl, fun _ _ _ => rfl⟩

/-- Witness for C8: rendering `App::default()` twice into the reference
test's 50×4 buffer gives identical frames. -/
theorem frame_purity_witness :
    render App.default { width := 50, height := 4, rows := [] }
      = render App.default { width := 50, height := 4, rows := [] } :=
  frame_purity.1 App.default
    { width := 50, height := 4, rows := [] }
    { width := 50, height := 4, rows := [] } rfl

/-- Counterexample to C2: from the initial state, the third increment key
event makes `run` return the `counter overflow` error with the state at
`(3, false)` — the state does not remain `(2, false)` and the loop stops by
propagating the error instead of continuing. -/
theorem scenarioA_counterexample :
    run App.default
        [Event.Key ⟨KeyCode.Right, KeyEventKind.Press⟩,
         Event.Key ⟨KeyCode.Right, KeyEventKind.Press⟩,
         Event.Key ⟨KeyCode.Right, KeyEventKind.Press⟩]
      = (RunResult.err "counter overflow" { counter := 3, exit := false }, 3)
      ∧ ({ counter := 3, exit := false } : App)
          ≠ ({ counter := 2, exit := false } : App) := by
  refine ⟨by decide, by decide⟩

/-- C2 (amended): from the initial state two increment key events yield
`(2, false)`; the third increment fails with the `counter overflow` error
after committing `counter := 3`, and the run loop propagates the error and
terminates (it does not keep running). -/
theorem scenarioA_amended :
    handleEvents App.default (Event.Key ⟨KeyCode.Right, KeyEventKind.Press⟩)
        = .ok { counter := 1, exit := false }
      ∧ handleEvents { counter := 1, exit := false }
            (Event.Key ⟨KeyCode.Right, KeyEventKind.Press⟩)
          = .ok { counter := 2, exit := false }
      ∧ handleEvents { counter := 2, exit := false }
            (Event.Key ⟨KeyCode.Right, KeyEventKind.Press⟩)
          = .err "counter overflow" { counter := 3, exit := false }
      ∧ run App.default
            [Event.Key ⟨KeyCode.Right, KeyEventKind.Press⟩,
             Event.Key ⟨KeyCode.Right, KeyEventKind.Press⟩,
             Event.Key ⟨KeyCode.Right, KeyEventKind.Press⟩]
          = (RunResult.err "counter overflow" { counter := 3, exit := false }, 3) := by
  refine ⟨by decide, by decide, by decide, by decide⟩

/-- Counterexample to C3: dispatching a decrement key event at
`counter = 0` does not return an error to the caller — the `u8` subtraction
itself faults (an unwinding panic, as the repository's own
`handle_key_event_panic` test asserts). -/
theorem decrement_at_zero_counterexample :
    handleKeyEvent { counter := 0, exit := false } KeyCode.Left
        = .panicked "attempt to subtract with overflow"
      ∧ (handleKeyEvent { counter := 0, exit := false } KeyCode.Left).isErr
          = false := by
  refine ⟨by decide, by decide⟩

/-- C3 (amended): dispatching a decrement key event at `counter = 0` faults
with the arithmetic-underflow panic `attempt to subtract with overflow`
instead of returning a `CounterUnderflow` error; no decremented state is
handed back to the caller. -/
theorem decrement_at_zero_amended :
    ∀ a : App, a.counter = 0 →
      handleKeyEvent a KeyCode.Left
          = .panicked "attempt to subtract with overflow"
        ∧ (handleKeyEvent a KeyCode.Left).state? = none := by
  intro a h
  simp [handleKeyEvent, decrementCounter, h, Outcome.state?]

/-- Witness for the amended C3, at the concrete initial state. -/
theorem decrement_at_zero_amended_witness :
    handleKeyEvent { counter := 0, exit := false } KeyCode.Left
      = .panicked "attempt to subtract with overflow" :=
  (decrement_at_zero_amended { counter := 0, exit := false } rfl).1

/-- Counterexample to C9: at `counter = 255` (the `u8` maximum, which is
`2` or greater) `increment_counter` does not return an error — the `u8`
addition itself faults before the range check is reached. -/
theorem increment_at_max_counterexample :
    (2 : Nat) ≤ 255
      ∧ incrementCounter { counter := 255, exit := false }
          = .panicked "attempt to add with overflow"
      ∧ (incrementCounter { counter := 255, exit := false }).isErr = false := by
  refine ⟨by decide, by decide, by decide⟩

/-- C9 (amended): `increment_counter` returns an error exactly when the
counter before the call is between `2` and `254` (at `255` the `u8`
increment itself panics); whenever it returns the error, the increment was
already committed, so the caller is left with the out-of-range value
`old counter + 1`. -/
theorem increment_not_atomic_amended :
    ∀ a : App, a.counter ≤ 255 →
      ((∃ m a', incrementCounter a = .err m a')
          ↔ 2 ≤ a.counter ∧ a.counter ≤ 254)
      ∧ (∀ (m : String) (a' : App), incrementCounter a = .err m a' →
          a'.counter = a.counter + 1 ∧ 2 < a'.counter
            ∧ m = "counter overflow") := by
  intro a hle
  unfold incrementCounter
  by_cases h255 : a.counter = 255
  · simp [h255]
  · by_cases h2 : 2 < a.counter + 1 <;> simp [h255, h2]
    · omega
    · omega

/-- Witness for the amended C9, at the concrete state `(2, false)`: the
failed increment leaves the committed value `3 = 2 + 1`. -/
theorem increment_not_atomic_amended_witness :
    ({ counter := 3, exit := false } : App).counter
        = ({ counter := 2, exit := false } : App).counter + 1
      ∧ 2 < ({ counter := 3, exit := false } : App).counter
      ∧ "counter overflow" = "counter overflow" :=
  (increment_not_atomic_amended { counter := 2, exit := false } (by decide)).2
    "counter overflow" { counter := 3, exit := false } (by decide)

/-- Counterexample to C4: the state `(2, false)` is reachable from the
initial state by successful transitions, and the increment key event from it
— a transition that would push the counter outside `[0, 2]` — fails *after*
committing the mutation: the caller is left with the out-of-range counter
value `3`. -/
theorem bounded_counter_counterexample :
    Reachable { counter := 2, exit := false }
      ∧ handleEvents { counter := 2, exit := false }
            (Event.Key ⟨KeyCode.Right, KeyEventKind.Press⟩)
          = .err "counter overflow" { counter := 3, exit := false }
      ∧ ¬ ({ counter := 3, exit := false } : App).counter ≤ 2 := by
  refine ⟨?_, by decide, by decide⟩
  have h1 : Reachable { counter := 1, exit := false } :=
    Reachable.step App.default { counter := 1, exit := false }
      (Event.Key ⟨KeyCode.Right, KeyEventKind.Press⟩) Reachable.init (by decide)
  exact Reachable.step { counter := 1, exit := false }
    { counter := 2, exit := false }
    (Event.Key ⟨KeyCode.Right, KeyEventKind.Press⟩) h1 (by decide)

/-- C4 (amended): along every sequence of successful event dispatches from
the initial state the counter stays within `[0, 2]`; a failed increment,
however, commits the out-of-range value `old counter + 1` before reporting
the overflow error, and a failed decrement never returns an error at all
(it faults). -/
theorem bounded_counter_amended :
    (∀ a : App, Reachable a → a.counter ≤ 2)
      ∧ (∀ (a a' : App) (m : String), incrementCounter a = .err m a' →
          a'.counter = a.counter + 1 ∧ 2 < a'.counter)
      ∧ (∀ (a a' : App) (m : String), decrementCounter a ≠ .err m a') := by
  refine ⟨?_, ?_, ?_⟩
  · intro a h
    induction h with
    | init => decide
    | step b b' ev _ hstep ih => exact handleEvents_ok_counter_le b ev b' hstep ih
  · intro a a' m h
    unfold incrementCounter at h
    by_cases h255 : a.counter = 255
    · simp [h255] at h
    · by_cases h2 : 2 < a.counter + 1 <;> simp [h255, h2] at h
      obtain ⟨hm, ha⟩ := h
      subst ha
      exact ⟨rfl, h2⟩
  · intro a a' m h
    unfold decrementCounter at h
    by_cases h0 : a.counter = 0 <;> simp [h0] at h

/-- Witness for the amended C4: the state `(1, false)`, reached by one
successful increment from the initial state, has its counter within
`[0, 2]`. -/
theorem bounded_counter_amended_witness :
    ({ counter := 1, exit := false } : App).counter ≤ 2 :=
  bounded_counter_amended.1 { counter := 1, exit := false }
    (Reachable.step App.default { counter := 1, exit := false }
      (Event.Key ⟨KeyCode.Right, KeyEventKind.Press⟩) Reachable.init (by decide))

/-- C5: the quit key sets the exit flag without touching the counter; no
event dispatch that returns control to the caller ever resets a set exit
flag; and with the exit flag set, `run` terminates at the next
top-of-iteration check with a success result (drawing no further frame). -/
theorem quit_monotonic_exit :
    (∀ a : App,
        handleKeyEvent a (KeyCode.Char 'q') = .ok { a with exit := true })
      ∧ (∀ (a : App) (ev : Event) (a' : App),
          (handleEvents a ev).state? = some a' → a.exit = true →
            a'.exit = true)
      ∧ (∀ (a : App) (evs : List Event), a.exit = true →
          run a evs = (.ok a, 0)) :=
  ⟨fun _ => rfl, handleEvents_exit_mono, run_exit_now⟩

/-- Witness for C5: with the exit flag already set at `(1, true)`, the loop
returns success immediately without drawing. -/
theorem quit_monotonic_exit_witness :
    run { counter := 1, exit := true } [] =
      (RunResult.ok { counter := 1, exit := true }, 0) :=
  quit_monotonic_exit.2.2 { counter := 1, exit := true } [] rfl

/-- C6: key events of kind repeat or release are not dispatched — they leave
the state unchanged and succeed — while press-kind key events are dispatched
to `handle_key_event`; the hello-world demo's loop likewise only quits on a
press-kind `'q'`. -/
theorem key_kind_filtering :
    (∀ (a : App) (ke : KeyEvent), ke.kind ≠ KeyEventKind.Press →
        handleEvents a (Event.Key ke) = .ok a)
      ∧ (∀ (a : App) (code : KeyCode),
          handleEvents a (Event.Key ⟨code, KeyEventKind.Press⟩)
            = handleKeyEvent a code)
      ∧ (∀ ke : KeyEvent, ke.kind ≠ KeyEventKind.Press →
          demoShouldQuit (some (Event.Key ke)) = false) := by
  refine ⟨?_, ?_, ?_⟩
  · intro a ke h
    simp [handleEvents, h]
  · intro a code
    simp [handleEvents]
  · intro ke h
    simp [demoShouldQuit, h]

/-- Witness for C6: a release-kind Left key event at the initial state is a
successful no-op (in particular it does not reach the decrement, which would
fault at counter 0). -/
theorem key_kind_filtering_witness :
    handleEvents App.default (Event.Key ⟨KeyCode.Left, KeyEventKind.Release⟩)
      = .ok App.default :=
  key_kind_filtering.1 App.default
    ⟨KeyCode.Left, KeyEventKind.Release⟩ (by decide)

end CounterDemo
